import Mathlib

/-!
Shallow embedding of the ride booking / seat-inventory core of the
rideshare repository:

* `src/backend/models/Ride.js` — the ride document: `availableSeats`
  counter, embedded passenger roster, derived status, the
  `bookedSeats`/`remainingSeats` virtuals, `isFull`, `isPast`,
  `updateStatus` (also run as the `pre('save')` hook).
* `src/backend/models/Booking.js` — the booking document, the
  `canBeCancelled` guard and the `calculateRefund` policy.
* `src/backend/controllers/rideController.js` — `bookRide`, `cancelRide`,
  `cancelBooking` (the load / mutate-in-place / save flow).
* `src/backend/controllers/ratingController.js` — `submitRating`.

Modelling conventions:

* Mongo ObjectId references (driver, passenger, ride, booking) are
  modelled as natural-number ids; `x.toString() === y` comparisons on
  references, populated or not, are modelled as id equality.
* Times are integers (milliseconds since epoch, as in the JS `Date`
  arithmetic).  A ride's `date` + `departureTime` pair is collapsed into
  the single departure instant `dateTime`.
* Money is `ℚ` (the refund policy multiplies by 0.5).
* The store holds one ride document plus the booking collection — all
  booking operations in the controllers address a single ride.
  `Ride.findById` carries the `pre(/^find/)` query middleware of
  `Ride.js` that filters out rides with status `cancelled`.
* Each controller returns the resulting store state plus an optional
  error; the error constructors name the distinct early-return branches
  of the controller code.
* The `pre('save')` hook of `Booking.js` re-checks seat availability and
  ride status against the store; on the sequential `bookRide` path those
  checks duplicate the controller's own guards against the same state, so
  they can never fire and are not repeated.  The `post('save')` hook's
  `$inc`/`$addToSet` write is overwritten by the controller's subsequent
  `ride.save()` of the same (in-memory mutated) ride document, which is
  the write modelled here.
-/

namespace Rideshare

/-- Ride status enum of `Ride.js` (`active | completed | cancelled | full |
in-progress | expired`). -/
inductive RideStatus
  | active
  | completed
  | cancelled
  | full
  | inProgress
  | expired
deriving DecidableEq, Repr

/-- Booking status enum of `Booking.js`. -/
inductive BookingStatus
  | pending
  | confirmed
  | cancelled
  | completed
  | rejected
deriving DecidableEq, Repr

/-- Roster-entry status enum of the embedded `passengers` array in
`Ride.js` (`confirmed | pending | cancelled | no-show`). -/
inductive PassStatus
  | confirmed
  | pending
  | cancelled
  | noShow
deriving DecidableEq, Repr

/-- Payment status enum of `Booking.js`. -/
inductive PayStatus
  | pending
  | paid
  | failed
  | refunded
deriving DecidableEq, Repr

/-- One embedded passenger (roster) entry of a ride (`Ride.js`,
`passengers` array). -/
structure Passenger where
  user : Nat
  seats : Int
  pickupPoint : String
  status : PassStatus
  booking : Nat
deriving DecidableEq, Repr

/-- The ride document (the fields the booking core reads or writes).
`availableSeats` is the mutable remaining-seats counter; `dateTime` is
the scheduled departure instant in milliseconds. -/
structure Ride where
  id : Nat
  driver : Nat
  availableSeats : Int
  pricePerSeat : Int
  passengers : List Passenger
  status : RideStatus
  dateTime : Int
  rideCompletedAt : Option Int
deriving DecidableEq, Repr

/-- The booking document (the fields the booking core reads or writes).
`driverRating` / `passengerRating` model the two rating sub-records:
`some r` once a rating has been stored, `none` before. -/
structure Booking where
  id : Nat
  ride : Nat
  passenger : Nat
  seatsBooked : Int
  totalPrice : ℚ
  pickupPoint : String
  status : BookingStatus
  paymentStatus : PayStatus
  driverRating : Option Int
  passengerRating : Option Int
deriving DecidableEq, Repr

/-- Roster entries counted by the `bookedSeats` virtual: status
`confirmed` or `pending`. -/
def activeEntry (p : Passenger) : Bool :=
  p.status = PassStatus.confirmed || p.status = PassStatus.pending

/-- `Ride.js` virtual `bookedSeats`: sum of `seats` over roster entries
with status `confirmed` or `pending`. -/
def Ride.bookedSeats (r : Ride) : Int :=
  (r.passengers.filter activeEntry).foldl (fun t p => t + p.seats) 0

/-- `Ride.js` virtual `remainingSeats = availableSeats - bookedSeats`. -/
def Ride.remainingSeats (r : Ride) : Int :=
  r.availableSeats - r.bookedSeats

/-- `Ride.js` instance method `isFull`: `remainingSeats <= 0`. -/
def Ride.isFull (r : Ride) : Bool :=
  r.remainingSeats ≤ 0

/-- `Ride.js` virtual `isPast`: the departure instant is before `now`. -/
def Ride.isPast (r : Ride) (now : Int) : Bool :=
  r.dateTime < now

/-- `Ride.js` instance method `updateStatus` (also run by the
`pre('save')` hook): force `full` when the ride is full, revert
`full → active` when it no longer is, and auto-complete a past `active`
ride, stamping `rideCompletedAt`. -/
def Ride.updateStatus (r : Ride) (now : Int) : Ride :=
  let r1 :=
    if r.isFull then { r with status := RideStatus.full }
    else if r.status = RideStatus.full then { r with status := RideStatus.active }
    else r
  if r1.isPast now && r1.status = RideStatus.active then
    { r1 with status := RideStatus.completed, rideCompletedAt := some now }
  else r1

/-- `Booking.js` instance method `canBeCancelled`: ride date populated,
`now` before (ride date − 1 hour), status `pending`/`confirmed`, payment
not already refunded.  (3600000 ms = 1 hour.) -/
def Booking.canBeCancelled (b : Booking) (rideDate : Option Int) (now : Int) : Bool :=
  match rideDate with
  | none => false
  | some d =>
      decide (now < d - 3600000) &&
        (b.status = BookingStatus.pending || b.status = BookingStatus.confirmed) &&
        !(b.paymentStatus = PayStatus.refunded)

/-- Hours until the ride, as computed in `Booking.js`:
`(rideDate - now) / (1000 * 60 * 60)`. -/
def hoursUntilRide (rideDate now : Int) : ℚ :=
  ((rideDate - now : Int) : ℚ) / (1000 * 60 * 60)

/-- `Booking.js` instance method `calculateRefund`: 0 unless the booking
is cancelled and the ride is populated; then full price above 24 hours
out, half price above 2 hours, otherwise 0. -/
def Booking.calculateRefund (b : Booking) (rideDate : Option Int) (now : Int) : ℚ :=
  if b.status = BookingStatus.cancelled then
    match rideDate with
    | none => 0
    | some d =>
        let h := hoursUntilRide d now
        if h > 24 then b.totalPrice
        else if h > 2 then b.totalPrice * (1 / 2)
        else 0
  else 0

/-- The document store visible to the booking core: the ride document,
the booking collection, and the id the next created booking receives. -/
structure DB where
  ride : Ride
  bookings : List Booking
  nextId : Nat
deriving DecidableEq, Repr

/-- The distinct early-return error branches of the embedded
controllers. -/
inductive ApiErr
  | invalidSeats
  | missingPickup
  | rideNotFound
  | invalidState (s : RideStatus)
  | capacityExceeded
  | ownRide
  | duplicateBooking
  | bookingNotFound
  | notAuthorized
  | serverError
  | missingFields
  | outOfRange
  | invalidRatedType
  | notEligible
  | alreadyRated
deriving DecidableEq, Repr

/-- A controller result: the store state afterwards, plus the error of
the early-return branch taken, if any. -/
structure Res where
  db : DB
  err : Option ApiErr
deriving DecidableEq, Repr

/-- `Ride.findById`, including the `pre(/^find/)` query middleware of
`Ride.js` that excludes rides with status `cancelled`. -/
def DB.findRide (db : DB) (rideId : Nat) : Option Ride :=
  if db.ride.id = rideId ∧ db.ride.status ≠ RideStatus.cancelled then some db.ride
  else none

/-- `Booking.findById`. -/
def DB.findBooking (db : DB) (bid : Nat) : Option Booking :=
  db.bookings.find? (fun b => b.id = bid)

/-- The controller's duplicate check in `bookRide`: an existing booking
for this ride and passenger with status `confirmed` or `pending`. -/
def hasActiveBooking (db : DB) (rideId user : Nat) : Bool :=
  db.bookings.any (fun b =>
    b.ride = rideId && b.passenger = user &&
      (b.status = BookingStatus.confirmed || b.status = BookingStatus.pending))

/-- Write an updated booking document back into the collection. -/
def setBooking (bs : List Booking) (b1 : Booking) : List Booking :=
  bs.map (fun b => if b.id = b1.id then b1 else b)

/-- A `bookRide` request body plus the authenticated user. -/
structure BookReq where
  user : Nat
  rideId : Nat
  seats : Int
  pickupPoint : Option String
deriving DecidableEq, Repr

/-- `rideController.js` `bookRide`: validate seats and pickup point, load
the ride, check status, availability, own-ride and duplicate booking,
then create the confirmed booking, decrement `availableSeats`, push the
roster entry (default status `confirmed`), set status `full` when the
counter reaches 0, and save (running `updateStatus`). -/
def bookRide (db : DB) (req : BookReq) (now : Int) : Res :=
  if req.seats < 1 then ⟨db, some ApiErr.invalidSeats⟩
  else
    match req.pickupPoint with
    | none => ⟨db, some ApiErr.missingPickup⟩
    | some pickup =>
        match db.findRide req.rideId with
        | none => ⟨db, some ApiErr.rideNotFound⟩
        | some ride =>
            if ride.status ≠ RideStatus.active then
              ⟨db, some (ApiErr.invalidState ride.status)⟩
            else if ride.availableSeats < req.seats then
              ⟨db, some ApiErr.capacityExceeded⟩
            else if ride.driver = req.user then
              ⟨db, some ApiErr.ownRide⟩
            else if hasActiveBooking db req.rideId req.user then
              ⟨db, some ApiErr.duplicateBooking⟩
            else
              let booking : Booking :=
                ⟨db.nextId, req.rideId, req.user, req.seats,
                  ((req.seats * ride.pricePerSeat : Int) : ℚ), pickup,
                  BookingStatus.confirmed, PayStatus.pending, none, none⟩
              let entry : Passenger :=
                ⟨req.user, req.seats, pickup, PassStatus.confirmed, booking.id⟩
              let ride1 := { ride with
                availableSeats := ride.availableSeats - req.seats,
                passengers := ride.passengers ++ [entry] }
              let ride2 :=
                if ride1.availableSeats = (0 : Int) then { ride1 with status := RideStatus.full }
                else ride1
              ⟨⟨ride2.updateStatus now, db.bookings ++ [booking], db.nextId + 1⟩, none⟩

/-- A `cancelBooking` request: the booking id plus the authenticated
user. -/
structure CancelReq where
  user : Nat
  bookingId : Nat
deriving DecidableEq, Repr

/-- `rideController.js` `cancelBooking`: load the booking, check
ownership, set its status to `cancelled` and save, then load the ride,
credit `availableSeats` by `seatsBooked`, drop the user's roster
entries, revert `full → active`, and save (running `updateStatus`).
There is no status or time-window guard (`Booking.canBeCancelled` is
never called), and the ride load can return `null` for a cancelled ride
(the query middleware), in which case the subsequent field access throws
after the booking was already saved — the `serverError` branch below. -/
def cancelBooking (db : DB) (req : CancelReq) (now : Int) : Res :=
  match db.findBooking req.bookingId with
  | none => ⟨db, some ApiErr.bookingNotFound⟩
  | some booking =>
      if booking.passenger ≠ req.user then ⟨db, some ApiErr.notAuthorized⟩
      else
        let bookings1 := setBooking db.bookings { booking with status := BookingStatus.cancelled }
        match db.findRide booking.ride with
        | none => ⟨⟨db.ride, bookings1, db.nextId⟩, some ApiErr.serverError⟩
        | some ride =>
            let ride1 := { ride with
              availableSeats := ride.availableSeats + booking.seatsBooked,
              passengers := ride.passengers.filter (fun p => p.user ≠ req.user) }
            let ride2 :=
              if ride1.status = RideStatus.full then { ride1 with status := RideStatus.active }
              else ride1
            ⟨⟨ride2.updateStatus now, bookings1, db.nextId⟩, none⟩

/-- A `cancelRide` request: the ride id plus the authenticated user. -/
structure CancelRideReq where
  user : Nat
  rideId : Nat
deriving DecidableEq, Repr

/-- `rideController.js` `cancelRide`: load the ride, check the driver,
bulk-update bookings of this ride with status `confirmed` to
`cancelled`, set the ride status to `cancelled` and save (running
`updateStatus`). -/
def cancelRide (db : DB) (req : CancelRideReq) (now : Int) : Res :=
  match db.findRide req.rideId with
  | none => ⟨db, some ApiErr.rideNotFound⟩
  | some ride =>
      if ride.driver ≠ req.user then ⟨db, some ApiErr.notAuthorized⟩
      else
        let bookings1 := db.bookings.map (fun b =>
          if b.ride = ride.id && b.status = BookingStatus.confirmed then
            { b with status := BookingStatus.cancelled }
          else b)
        ⟨⟨({ ride with status := RideStatus.cancelled }).updateStatus now,
          bookings1, db.nextId⟩, none⟩

/-- The `ratedUserType` request field of `submitRating` (`driver` or
`rider`; `other` stands for any other string). -/
inductive RatedType
  | driver
  | rider
  | other
deriving DecidableEq, Repr

/-- A `submitRating` request.  `rating = 0` encodes an absent rating
value (JS falsiness of `!rating`). -/
structure RatingReq where
  user : Nat
  bookingId : Nat
  rating : Int
  ratedUserType : RatedType
deriving DecidableEq, Repr

/-- `ratingController.js` `submitRating`: validate the rating value and
direction, load the booking (with its ride populated — a booking whose
ride reference does not resolve throws on the status access, the
`serverError` branch), require the parent ride to be `completed`, check
the rater is the right party for the direction, reject when that
direction's sub-record is already set, otherwise store the rating. -/
def submitRating (db : DB) (req : RatingReq) : Res :=
  if req.rating = 0 then ⟨db, some ApiErr.missingFields⟩
  else if req.rating < 1 ∨ req.rating > 5 then ⟨db, some ApiErr.outOfRange⟩
  else if req.ratedUserType = RatedType.other then ⟨db, some ApiErr.invalidRatedType⟩
  else
    match db.findBooking req.bookingId with
    | none => ⟨db, some ApiErr.bookingNotFound⟩
    | some booking =>
        if booking.ride ≠ db.ride.id then ⟨db, some ApiErr.serverError⟩
        else if db.ride.status ≠ RideStatus.completed then ⟨db, some ApiErr.notEligible⟩
        else
          match req.ratedUserType with
          | RatedType.driver =>
              if booking.passenger ≠ req.user then ⟨db, some ApiErr.notAuthorized⟩
              else if booking.driverRating.isSome then ⟨db, some ApiErr.alreadyRated⟩
              else
                ⟨⟨db.ride,
                  setBooking db.bookings { booking with driverRating := some req.rating },
                  db.nextId⟩, none⟩
          | RatedType.rider =>
              if db.ride.driver ≠ req.user then ⟨db, some ApiErr.notAuthorized⟩
              else if booking.passengerRating.isSome then ⟨db, some ApiErr.alreadyRated⟩
              else
                ⟨⟨db.ride,
                  setBooking db.bookings { booking with passengerRating := some req.rating },
                  db.nextId⟩, none⟩
          | RatedType.other => ⟨db, some ApiErr.invalidRatedType⟩

/-- One step of the booking workflow: a `bookRide` or a `cancelBooking`
request, with its arrival time. -/
inductive Op
  | book (req : BookReq) (now : Int)
  | cancel (req : CancelReq) (now : Int)
deriving DecidableEq, Repr

/-- Apply one operation to the store (keeping the state the controller
leaves behind, whether or not it reported an error). -/
def applyOp (db : DB) : Op → DB
  | Op.book req now => (bookRide db req now).db
  | Op.cancel req now => (cancelBooking db req now).db

/-- Run a sequence of booking/cancellation operations. -/
def runOps (db : DB) : List Op → DB
  | [] => db
  | op :: ops => runOps (applyOp db op) ops

/-- The capacity bookkeeping invariant claimed by the spec, for a ride
whose total (creation-time) capacity is `cap`: the `availableSeats`
counter equals `cap` minus the seats held by `confirmed`/`pending`
roster entries, and is never negative. -/
def capacityInvariant (cap : Int) (r : Ride) : Prop :=
  r.availableSeats = cap - r.bookedSeats ∧ 0 ≤ r.availableSeats

instance (cap : Int) (r : Ride) : Decidable (capacityInvariant cap r) :=
  inferInstanceAs (Decidable (r.availableSeats = cap - r.bookedSeats ∧ 0 ≤ r.availableSeats))

/-- A fresh capacity-3 ride: driver 10, price 100 per seat, empty roster,
status `active`, departure far in the future. -/
def freshRide : Ride := ⟨1, 10, 3, 100, [], RideStatus.active, 10000000000000, none⟩

/-- Store holding just `freshRide` and no bookings. -/
def freshDB : DB := ⟨freshRide, [], 0⟩

/-- Passenger 20 books 2 seats on ride 1, then cancels the resulting
booking (id 0) twice. -/
def c1Ops : List Op :=
  [Op.book ⟨20, 1, 2, some "x"⟩ 0, Op.cancel ⟨20, 0⟩ 0, Op.cancel ⟨20, 0⟩ 0]

/-- A completed ride with 1 seat left on its counter, and a request for 2
seats on it. -/
def c2DB : DB := ⟨⟨1, 10, 1, 100, [], RideStatus.completed, 10000000000000, none⟩, [], 0⟩

def c2Req : BookReq := ⟨20, 1, 2, some "x"⟩

/-- An active ride with 1 seat left whose passenger 20 already holds a
confirmed 2-seat booking, and passenger 20's request for 2 more seats. -/
def c3DB : DB :=
  ⟨⟨1, 10, 1, 100, [⟨20, 2, "x", PassStatus.confirmed, 0⟩], RideStatus.active,
      10000000000000, none⟩,
    [⟨0, 1, 20, 2, 200, "x", BookingStatus.confirmed, PayStatus.pending, none, none⟩], 1⟩

def c3Req : BookReq := ⟨20, 1, 2, some "x"⟩

/-- A cancelled booking of total price 500. -/
def c4B : Booking :=
  ⟨0, 1, 20, 2, 500, "x", BookingStatus.cancelled, PayStatus.pending, none, none⟩

/-- A capacity-3 ride on which passenger 20 holds a confirmed 2-seat
booking (counter at 1, roster entry of 2 seats, status `full` as the
save hook leaves it). -/
def c5DB : DB :=
  ⟨⟨1, 10, 1, 100, [⟨20, 2, "x", PassStatus.confirmed, 0⟩], RideStatus.full,
      10000000000000, none⟩,
    [⟨0, 1, 20, 2, 200, "x", BookingStatus.confirmed, PayStatus.pending, none, none⟩], 1⟩

/-- Like `c5DB` but departing at instant 1000, so that at `now = 500` the
departure is less than one hour away (the cancellation window of the
spec is closed). -/
def c6DB : DB :=
  ⟨⟨1, 10, 1, 100, [⟨20, 2, "x", PassStatus.confirmed, 0⟩], RideStatus.full, 1000, none⟩,
    [⟨0, 1, 20, 2, 200, "x", BookingStatus.confirmed, PayStatus.pending, none, none⟩], 1⟩

/-- A full ride (counter 0, one confirmed 2-seat roster entry) with one
confirmed and one pending booking referencing it. -/
def c8DB : DB :=
  ⟨⟨1, 10, 0, 100, [⟨20, 2, "x", PassStatus.confirmed, 0⟩], RideStatus.full,
      10000000000000, none⟩,
    [⟨0, 1, 20, 2, 200, "x", BookingStatus.confirmed, PayStatus.pending, none, none⟩,
     ⟨1, 1, 21, 1, 100, "y", BookingStatus.pending, PayStatus.pending, none, none⟩], 2⟩

/-- A non-completed (active) ride whose booking 0 is completed — rating
it must be refused. -/
def c9DB : DB :=
  ⟨⟨1, 10, 0, 100, [], RideStatus.active, 10000000000000, none⟩,
    [⟨0, 1, 20, 2, 200, "x", BookingStatus.completed, PayStatus.pending, none, none⟩], 1⟩

def c9Req : RatingReq := ⟨20, 0, 5, RatedType.driver⟩

/-- The driver of `freshRide` requests 2 seats on their own ride. -/
def c10Req : BookReq := ⟨10, 1, 2, some "x"⟩

/-- An active 2-seat ride on which passenger 20 already holds a confirmed
1-seat booking and 2 seats are still available — so a repeat request by
passenger 20 passes every check before the duplicate check. -/
def c3wDB : DB :=
  ⟨⟨1, 10, 2, 100, [⟨20, 1, "x", PassStatus.confirmed, 0⟩], RideStatus.active,
      10000000000000, none⟩,
    [⟨0, 1, 20, 1, 100, "x", BookingStatus.confirmed, PayStatus.pending, none, none⟩], 1⟩

/-- An active, non-full ride with one confirmed booking, whose driver
cancels it. -/
def c8wDB : DB :=
  ⟨⟨1, 10, 2, 100, [], RideStatus.active, 10000000000000, none⟩,
    [⟨0, 1, 20, 2, 200, "x", BookingStatus.confirmed, PayStatus.pending, none, none⟩], 1⟩

/-- The completed booking sitting in `c9DB`. -/
def c9B : Booking :=
  ⟨0, 1, 20, 2, 200, "x", BookingStatus.completed, PayStatus.pending, none, none⟩

end Rideshare

namespace Rideshare

@[simp]
lemma isFull_set_status (r : Ride) (s : RideStatus) :
    ({ r with status := s } : Ride).isFull = r.isFull := rfl

@[simp]
lemma isFull_set_status_completedAt (r : Ride) (s : RideStatus) (c : Option Int) :
    ({ r with status := s, rideCompletedAt := c } : Ride).isFull = r.isFull := rfl

@[simp]
lemma isPast_set_status (r : Ride) (s : RideStatus) (now : Int) :
    ({ r with status := s } : Ride).isPast now = r.isPast now := rfl

@[simp]
lemma isPast_set_status_completedAt (r : Ride) (s : RideStatus) (c : Option Int) (now : Int) :
    ({ r with status := s, rideCompletedAt := c } : Ride).isPast now = r.isPast now := rfl

lemma findRide_some {db : DB} {rid : Nat} {r : Ride} (h : db.findRide rid = some r) :
    r = db.ride ∧ db.ride.id = rid ∧ db.ride.status ≠ RideStatus.cancelled := by
  unfold DB.findRide at h
  split at h
  next hc => exact ⟨(Option.some.inj h).symm, hc⟩
  next => cases h

lemma findRide_eq_some {db : DB} {rid : Nat} (hid : db.ride.id = rid)
    (hnc : db.ride.status ≠ RideStatus.cancelled) :
    db.findRide rid = some db.ride := by
  unfold DB.findRide
  rw [if_pos ⟨hid, hnc⟩]

@[simp]
lemma status_set_status (r : Ride) (s : RideStatus) :
    ({ r with status := s } : Ride).status = s := rfl

@[simp]
lemma status_set_status_completedAt (r : Ride) (s : RideStatus) (c : Option Int) :
    ({ r with status := s, rideCompletedAt := c } : Ride).status = s := rfl

/-- Claim C1: for every ride, after any sequence of `bookRide` and
`cancelBooking` operations, `availableSeats` equals the total capacity
minus the seats of `confirmed`/`pending` roster entries, and is never
negative.  The code violates the equality: on a fresh capacity-3 ride,
booking 2 seats and then cancelling the same booking twice (the second
cancel is accepted — `cancelBooking` has no status guard) leaves
`availableSeats = 5` with an empty active roster, instead of `3`. -/
theorem C1_capacity_invariant_violated :
    (runOps freshDB c1Ops).ride.availableSeats = 5 ∧
    (runOps freshDB c1Ops).ride.bookedSeats = 0 ∧
    ¬ capacityInvariant 3 (runOps freshDB c1Ops).ride := by decide

/-- Claim C2, counterexample to the claim as stated: a request for 2
seats on a findable ride with only 1 seat left does fail and mutate
nothing, but when the ride's status is not `active` (here `completed`)
the error is the status error, not `CapacityExceeded` — the status check
precedes the availability check. -/
theorem C2_claim_counterexample :
    c2DB.ride.availableSeats < c2Req.seats ∧
    (bookRide c2DB c2Req 0).err = some (ApiErr.invalidState RideStatus.completed) ∧
    (bookRide c2DB c2Req 0).err ≠ some ApiErr.capacityExceeded := by decide

/-- Claim C2, amended: whenever the requested seats exceed
`availableSeats`, `bookRide` fails and leaves the store (booking
collection, capacity counter, roster) unchanged; and when the request
also passes the earlier checks (seats ≥ 1, pickup point present, ride id
matches, ride `active`) the error is `CapacityExceeded`. -/
theorem C2_capacity_rejection (db : DB) (req : BookReq) (now : Int)
    (hcap : db.ride.availableSeats < req.seats) :
    (bookRide db req now).db = db ∧ (bookRide db req now).err.isSome ∧
      (1 ≤ req.seats → req.pickupPoint.isSome → req.rideId = db.ride.id →
        db.ride.status = RideStatus.active →
        (bookRide db req now).err = some ApiErr.capacityExceeded) := by
  unfold bookRide
  split
  · next hs => exact ⟨rfl, rfl, fun h1 _ _ _ => absurd hs (by omega)⟩
  · next hs =>
    split
    · next hpk => exact ⟨rfl, rfl, fun _ h2 _ _ => by rw [hpk] at h2; cases h2⟩
    · next pickup hpk =>
      split
      · next hnone =>
        refine ⟨rfl, rfl, fun _ _ h3 h4 => ?_⟩
        rw [findRide_eq_some h3.symm (by rw [h4]; exact fun hc => by cases hc)] at hnone
        cases hnone
      · next ride heq =>
        obtain ⟨hr, _, _⟩ := findRide_some heq
        subst hr
        split
        · next hact => exact ⟨rfl, rfl, fun _ _ _ h4 => absurd h4 (by simpa using hact)⟩
        · next hact =>
          exact ⟨rfl, rfl, fun _ _ _ _ => rfl⟩

/-- Witness for `C2_capacity_rejection`: requesting 5 seats on the fresh
3-seat active ride is rejected with `CapacityExceeded` and the store is
unchanged. -/
theorem C2_capacity_rejection_witness :
    (bookRide freshDB ⟨20, 1, 5, some "x"⟩ 0).db = freshDB ∧
    (bookRide freshDB ⟨20, 1, 5, some "x"⟩ 0).err = some ApiErr.capacityExceeded := by
  have h := C2_capacity_rejection freshDB ⟨20, 1, 5, some "x"⟩ 0 (by decide)
  exact ⟨h.1, h.2.2 (by decide) (by decide) (by decide) (by decide)⟩

/-- Claim C3, counterexample to the claim as stated: passenger 20
already holds a confirmed 2-seat booking on `c3DB`'s ride and requests 2
more with only 1 seat left; the attempt fails, but with
`CapacityExceeded`, not `DuplicatePassenger` — the availability check
precedes the duplicate check. -/
theorem C3_claim_counterexample :
    hasActiveBooking c3DB c3Req.rideId c3Req.user = true ∧
    (bookRide c3DB c3Req 0).err = some ApiErr.capacityExceeded ∧
    (bookRide c3DB c3Req 0).err ≠ some ApiErr.duplicateBooking := by decide

/-- Claim C3, amended: whenever the passenger already holds a
`pending`/`confirmed` booking on the ride, `bookRide` fails and creates
no second booking (the store is unchanged); and when the request also
passes the earlier checks (seats ≥ 1, pickup present, ride id matches,
ride `active`, enough seats, requester not the driver) the error is
`DuplicatePassenger`. -/
theorem C3_duplicate_rejection (db : DB) (req : BookReq) (now : Int)
    (hdup : hasActiveBooking db req.rideId req.user = true) :
    (bookRide db req now).db = db ∧ (bookRide db req now).err.isSome ∧
      (1 ≤ req.seats → req.pickupPoint.isSome → req.rideId = db.ride.id →
        db.ride.status = RideStatus.active → req.seats ≤ db.ride.availableSeats →
        db.ride.driver ≠ req.user →
        (bookRide db req now).err = some ApiErr.duplicateBooking) := by
  unfold bookRide
  split
  · next hs => exact ⟨rfl, rfl, fun h1 _ _ _ _ _ => absurd hs (by omega)⟩
  · next hs =>
    split
    · next hpk => exact ⟨rfl, rfl, fun _ h2 _ _ _ _ => by rw [hpk] at h2; cases h2⟩
    · next pickup hpk =>
      split
      · next hnone =>
        refine ⟨rfl, rfl, fun _ _ h3 h4 _ _ => ?_⟩
        rw [findRide_eq_some h3.symm (by rw [h4]; exact fun hc => by cases hc)] at hnone
        cases hnone
      · next ride heq =>
        obtain ⟨hr, _, _⟩ := findRide_some heq
        subst hr
        split
        · next hact => exact ⟨rfl, rfl, fun _ _ _ h4 _ _ => absurd h4 (by simpa using hact)⟩
        · next hact =>
          split
          · next hav => exact ⟨rfl, rfl, fun _ _ _ _ h5 _ => absurd hav (by omega)⟩
          · next hav =>
            split
            · next hdrv => exact ⟨rfl, rfl, fun _ _ _ _ _ h6 => absurd hdrv h6⟩
            · next hdrv =>
              exact ⟨rfl, rfl, fun _ _ _ _ _ _ => rfl⟩

/-- Witness for `C3_duplicate_rejection`: passenger 20, who already
holds a confirmed booking on `c3wDB`'s ride, requests 1 more seat and is
rejected with `DuplicatePassenger`, the store unchanged. -/
theorem C3_duplicate_rejection_witness :
    (bookRide c3wDB ⟨20, 1, 1, some "x"⟩ 0).db = c3wDB ∧
    (bookRide c3wDB ⟨20, 1, 1, some "x"⟩ 0).err = some ApiErr.duplicateBooking := by
  have h := C3_duplicate_rejection c3wDB ⟨20, 1, 1, some "x"⟩ 0 (by decide)
  exact ⟨h.1, h.2.2 (by decide) (by decide) (by decide) (by decide) (by decide) (by decide)⟩

/-- Claim C4: for a cancelled booking with a populated ride date, the
refund is a pure function of the total price and the hours until
departure: full price strictly above 24 hours, half price strictly above
2 and at most 24 hours, zero at or below 2 hours; in particular a
500-price booking refunds 500 at 25 hours, 250 at 10 hours, 0 at 1
hour. -/
theorem C4_refund_policy :
    (∀ (b : Booking) (d now : Int), b.status = BookingStatus.cancelled →
      (24 < hoursUntilRide d now → b.calculateRefund (some d) now = b.totalPrice) ∧
      (2 < hoursUntilRide d now → hoursUntilRide d now ≤ 24 →
        b.calculateRefund (some d) now = b.totalPrice * (1 / 2)) ∧
      (hoursUntilRide d now ≤ 2 → b.calculateRefund (some d) now = 0)) ∧
    (c4B.calculateRefund (some (25 * 3600000)) 0 = 500 ∧
     c4B.calculateRefund (some (10 * 3600000)) 0 = 250 ∧
     c4B.calculateRefund (some (1 * 3600000)) 0 = 0) := by
  constructor
  · intro b d now hb
    unfold Booking.calculateRefund
    rw [if_pos hb]
    dsimp only
    refine ⟨fun h24 => ?_, fun h2 h24 => ?_, fun h2 => ?_⟩
    · rw [if_pos h24]
    · rw [if_neg (not_lt.mpr h24), if_pos h2]
    · rw [if_neg (by linarith : ¬ hoursUntilRide d now > 24), if_neg (not_lt.mpr h2)]
  · refine ⟨?_, ?_, ?_⟩ <;>
      norm_num [Booking.calculateRefund, hoursUntilRide, c4B]

/-- Witness for `C4_refund_policy`: the 500-price cancelled booking
cancelled 25 hours (90000000 ms) before departure refunds its full total
price. -/
theorem C4_refund_policy_witness :
    c4B.calculateRefund (some 90000000) 0 = c4B.totalPrice :=
  (C4_refund_policy.1 c4B 90000000 0 rfl).1 (by norm_num [hoursUntilRide])

/-- Claim C5: cancelling a confirmed booking credits exactly its seats
(the first cancel below moves the counter from 1 back to 3), but the
claimed failure of a second cancel does not happen: `cancelBooking` has
no status guard, so cancelling the already-cancelled booking succeeds
again and credits the same 2 seats a second time, leaving the counter at
5. -/
theorem C5_double_cancel_double_credits :
    ((cancelBooking c5DB ⟨20, 0⟩ 0).err = none ∧
     (cancelBooking c5DB ⟨20, 0⟩ 0).db.ride.availableSeats = 3) ∧
    ((cancelBooking (cancelBooking c5DB ⟨20, 0⟩ 0).db ⟨20, 0⟩ 0).err = none ∧
     (cancelBooking (cancelBooking c5DB ⟨20, 0⟩ 0).db ⟨20, 0⟩ 0).db.ride.availableSeats = 5) := by
  decide

/-- Claim C6: the model-layer guard `Booking.canBeCancelled` (status
`pending`/`confirmed` and more than 1 hour before departure) reports
that the booking of `c6DB` may not be cancelled at time 500 (departure
at 1000 is within the hour), yet the controller — which never calls the
guard — cancels it successfully. -/
theorem C6_cancellation_window_not_enforced :
    Booking.canBeCancelled
        ⟨0, 1, 20, 2, 200, "x", BookingStatus.confirmed, PayStatus.pending, none, none⟩
        (some 1000) 500 = false ∧
    (cancelBooking c6DB ⟨20, 0⟩ 500).err = none ∧
    ((cancelBooking c6DB ⟨20, 0⟩ 500).db.bookings.map Booking.status)
      = [BookingStatus.cancelled] := by decide

/-- Claim C7: re-deriving a ride's status (`updateStatus`, the pure
recomputation run on every save) is idempotent for every ride state and
fixed current time. -/
theorem C7_updateStatus_idempotent (r : Ride) (now : Int) :
    ((r.updateStatus now).updateStatus now).status = (r.updateStatus now).status := by
  by_cases hf : r.isFull <;> by_cases hp : r.isPast now <;> cases hst : r.status <;>
    simp [Ride.updateStatus, hf, hp, hst]

/-- Claim C8, counterexample to the claim as stated: when the driver of
the full ride in `c8DB` cancels it, the pending booking (id 1) stays
`pending` (the bulk update filters on status `confirmed` only), and the
ride's final status is `full`, not `cancelled` — the pre-save
`updateStatus` hook overwrites `cancelled` because the roster keeps the
ride full. -/
theorem C8_claim_counterexample :
    (cancelRide c8DB ⟨10, 1⟩ 0).err = none ∧
    ((cancelRide c8DB ⟨10, 1⟩ 0).db.bookings.map Booking.status)
      = [BookingStatus.cancelled, BookingStatus.pending] ∧
    (cancelRide c8DB ⟨10, 1⟩ 0).db.ride.status = RideStatus.full := by decide

/-- Claim C8, amended: when the driver cancels a findable ride, exactly
the bookings of that ride with status `confirmed` transition to
`cancelled` (pending bookings are untouched), and the ride's status
becomes `cancelled` unless the save hook finds the ride full
(`availableSeats` minus active roster seats ≤ 0), in which case it
becomes `full`. -/
theorem C8_cancelRide_behavior (db : DB) (req : CancelRideReq) (now : Int)
    (hid : db.ride.id = req.rideId) (hnc : db.ride.status ≠ RideStatus.cancelled)
    (hdrv : db.ride.driver = req.user) :
    (cancelRide db req now).err = none ∧
    (cancelRide db req now).db.bookings = db.bookings.map (fun b =>
      if b.ride = db.ride.id && b.status = BookingStatus.confirmed then
        { b with status := BookingStatus.cancelled } else b) ∧
    (cancelRide db req now).db.ride.status =
      (if db.ride.isFull then RideStatus.full else RideStatus.cancelled) := by
  unfold cancelRide
  rw [findRide_eq_some hid hnc]
  dsimp only
  rw [if_neg (fun hne => hne hdrv)]
  refine ⟨rfl, rfl, ?_⟩
  by_cases hf : db.ride.isFull <;> simp [Ride.updateStatus, hf]

/-- Witness for `C8_cancelRide_behavior`: the driver cancels the
non-full active ride of `c8wDB`; the call succeeds and the ride ends
`cancelled`. -/
theorem C8_cancelRide_behavior_witness :
    (cancelRide c8wDB ⟨10, 1⟩ 0).err = none ∧
    (cancelRide c8wDB ⟨10, 1⟩ 0).db.ride.status = RideStatus.cancelled := by
  have h := C8_cancelRide_behavior c8wDB ⟨10, 1⟩ 0 rfl (by decide) rfl
  exact ⟨h.1, by rw [h.2.2]; decide⟩

/-- Claim C9: for a well-formed rating request (value in 1..5, direction
`driver` or `rider`) on an existing booking of the store's ride:
submitting when the parent ride is not `completed` fails with
`NotEligible`; submitting a second rating in the passenger→driver
direction (the passenger rating again when `driverRating` is set) fails
with `AlreadyRated`; likewise in the driver→passenger direction; and in
every failure case the store — including both rating sub-records — is
unchanged. -/
theorem C9_rating_guards :
    (∀ (db : DB) (req : RatingReq) (b : Booking),
      db.findBooking req.bookingId = some b → b.ride = db.ride.id →
      1 ≤ req.rating → req.rating ≤ 5 → req.ratedUserType ≠ RatedType.other →
      db.ride.status ≠ RideStatus.completed →
      (submitRating db req).err = some ApiErr.notEligible ∧ (submitRating db req).db = db) ∧
    (∀ (db : DB) (req : RatingReq) (b : Booking),
      db.findBooking req.bookingId = some b → b.ride = db.ride.id →
      1 ≤ req.rating → req.rating ≤ 5 → req.ratedUserType = RatedType.driver →
      db.ride.status = RideStatus.completed → b.passenger = req.user →
      b.driverRating.isSome →
      (submitRating db req).err = some ApiErr.alreadyRated ∧ (submitRating db req).db = db) ∧
    (∀ (db : DB) (req : RatingReq) (b : Booking),
      db.findBooking req.bookingId = some b → b.ride = db.ride.id →
      1 ≤ req.rating → req.rating ≤ 5 → req.ratedUserType = RatedType.rider →
      db.ride.status = RideStatus.completed → db.ride.driver = req.user →
      b.passengerRating.isSome →
      (submitRating db req).err = some ApiErr.alreadyRated ∧ (submitRating db req).db = db) := by
  refine ⟨?_, ?_, ?_⟩
  · intro db req b hfind hbr h1 h5 hty hstat
    unfold submitRating
    rw [if_neg (by omega : ¬req.rating = 0)]
    rw [if_neg (by omega : ¬(req.rating < 1 ∨ req.rating > 5))]
    rw [if_neg hty, hfind]
    dsimp only
    rw [if_neg (fun hne => hne hbr)]
    rw [if_pos hstat]
    exact ⟨rfl, rfl⟩
  · intro db req b hfind hbr h1 h5 hty hstat hpass hrated
    unfold submitRating
    rw [if_neg (by omega : ¬req.rating = 0)]
    rw [if_neg (by omega : ¬(req.rating < 1 ∨ req.rating > 5))]
    rw [hty]
    rw [if_neg (by decide : ¬(RatedType.driver = RatedType.other))]
    rw [hfind]
    dsimp only
    rw [if_neg (fun hne => hne hbr)]
    rw [if_neg (fun hne => hne hstat)]
    rw [if_neg (fun hne => hne hpass)]
    rw [if_pos hrated]
    exact ⟨rfl, rfl⟩
  · intro db req b hfind hbr h1 h5 hty hstat hdrv hrated
    unfold submitRating
    rw [if_neg (by omega : ¬req.rating = 0)]
    rw [if_neg (by omega : ¬(req.rating < 1 ∨ req.rating > 5))]
    rw [hty]
    rw [if_neg (by decide : ¬(RatedType.rider = RatedType.other))]
    rw [hfind]
    dsimp only
    rw [if_neg (fun hne => hne hbr)]
    rw [if_neg (fun hne => hne hstat)]
    rw [if_neg (fun hne => hne hdrv)]
    rw [if_pos hrated]
    exact ⟨rfl, rfl⟩

/-- Witness for `C9_rating_guards`: rating the completed booking of
`c9DB` while its ride is still `active` fails with `NotEligible` and
leaves the store unchanged. -/
theorem C9_rating_guards_witness :
    (submitRating c9DB c9Req).err = some ApiErr.notEligible ∧
    (submitRating c9DB c9Req).db = c9DB :=
  C9_rating_guards.1 c9DB c9Req c9B rfl rfl (by decide) (by decide) (by decide) (by decide)

/-- Claim C10: every `bookRide` request made by the ride's own driver
fails (the controller rejects self-booking before creating anything),
no booking is created and the store — ride included — is unchanged. -/
theorem C10_driver_cannot_book_own_ride (db : DB) (req : BookReq) (now : Int)
    (h : db.ride.driver = req.user) :
    (bookRide db req now).err.isSome ∧ (bookRide db req now).db = db := by
  unfold bookRide
  split
  · exact ⟨rfl, rfl⟩
  · split
    · exact ⟨rfl, rfl⟩
    · split
      · exact ⟨rfl, rfl⟩
      · next ride heq =>
          obtain ⟨hr, _, _⟩ := findRide_some heq
          subst hr
          split
          · exact ⟨rfl, rfl⟩
          · split
            · exact ⟨rfl, rfl⟩
            · exact ⟨rfl, rfl⟩

/-- Witness for `C10_driver_cannot_book_own_ride`: driver 10 requesting
2 seats on their own fresh ride is rejected and the store is
unchanged. -/
theorem C10_driver_cannot_book_own_ride_witness :
    (bookRide freshDB c10Req 0).err.isSome ∧ (bookRide freshDB c10Req 0).db = freshDB :=
  C10_driver_cannot_book_own_ride freshDB c10Req 0 rfl

end Rideshare
